import Mathlib

/-!
Shallow embedding of `src/geneva_drive/main.assy.py`, a declarative CAD
script building a Geneva-drive mechanism.  The script only computes
dimension constants and issues a fixed sequence of calls into an external
CAD library (`foundation`): sketch shapes, extrusion/lathe operations
added to parts, and components added to assemblies with translations.
We embed that call trace as inert data: shapes, operations, components,
and transforms are Lean structures, each part class becomes the literal
list of operations its constructor adds, and each assembly the literal
list of placed components.
-/

noncomputable section

namespace Geneva

/-! ### Module-level constants (lines 19-38 of the source) -/

def BASE_WIDTH : ℝ := 50

def BASE_LENGTH : ℝ := 100

def PIN_DISTANCE : ℝ := BASE_LENGTH * 0.5

def PIN_DIAMETER : ℝ := 4

def DISK_DIAMETER : ℝ := 2 * PIN_DISTANCE / Real.sqrt 2 + PIN_DIAMETER

def SLIDING_CIRCLE_DIAMETER : ℝ := DISK_DIAMETER * 0.8

def BEARING_HEIGHT : ℝ := 6

def BEARING_DIAMETER : ℝ := 19

def BEARING_INNER_DIAMETER : ℝ := 6

def PLATE_THICKNESS : ℝ := 2

def PIN_HEIGHT : ℝ := 8

def LIP_HEIGHT : ℝ := 2

def DISK_TOLERANCE : ℝ := 0.5

def BEARING_PLATE_OFFSET : ℝ := 3

def CIRCLES_PART_HEIGHT : ℝ := PLATE_THICKNESS + LIP_HEIGHT + BEARING_PLATE_OFFSET

def CROSS_PART_HEIGHT : ℝ := CIRCLES_PART_HEIGHT + PLATE_THICKNESS

end Geneva

/-! ### The CAD-library boundary, as inert data

A sketch lives either on a plane parallel to the part's xy plane at a
given offset (`Sketch(self.xy())` is offset 0, `pf.get_parallel_plane`
gives a nonzero offset), or on the part's yz plane. -/

inductive Plane
  | xy (offset : ℝ)
  | yz

/-- A 2D shape placed in a sketch: `Circle`, `RoundedCornerRectangle`
(via `from_center_and_sides`), `Polygon` (a list of lines, each a pair of
endpoints), or a closed pencil profile (the list of points visited). -/
inductive Shape
  | circle (center : ℝ × ℝ) (radius : ℝ)
  | roundedCornerRectangle (center : ℝ × ℝ) (length width filletRadius : ℝ)
  | polygon (lines : List ((ℝ × ℝ) × (ℝ × ℝ)))
  | penProfile (points : List (ℝ × ℝ))

/-- An `Extrusion(shape, ...)` call: `Extrusion(s, h)` has `start = 0`,
`stop = h`; keyword form gives `start`/`stop` directly (`stop` embeds the
`end` keyword argument); `cut` defaults to false. -/
structure ExtrusionOp where
  plane : Plane
  shape : Shape
  start : ℝ
  stop : ℝ
  cut : Bool

/-- A `Lathe(shape, axis)` call: the closed pencil profile and the axis,
recorded as the two points of its defining line. -/
structure LatheOp where
  plane : Plane
  profile : List (ℝ × ℝ)
  axis : (ℝ × ℝ) × (ℝ × ℝ)

/-- One `self.add_operation(...)` argument. -/
inductive Op
  | extrusion (e : ExtrusionOp)
  | lathe (l : LatheOp)

/-- A `TFHelper` transform; the script only ever calls `translate_x` and
`translate_z`, so a transform is a translation vector. -/
structure TF where
  x : ℝ
  y : ℝ
  z : ℝ

def TF.id : TF := ⟨0, 0, 0⟩

def TF.translate_x (t : TF) (d : ℝ) : TF := { t with x := t.x + d }

def TF.translate_z (t : TF) (d : ℝ) : TF := { t with z := t.z + d }

/-- The sketch pencil (`sketch.pencil`): current position plus the points
visited so far, starting at the sketch origin. -/
structure Pen where
  pos : ℝ × ℝ
  points : List (ℝ × ℝ)

def Pen.start : Pen := ⟨(0, 0), [(0, 0)]⟩

def Pen.line_to (p : Pen) (x y : ℝ) : Pen := ⟨(x, y), p.points ++ [(x, y)]⟩

def Pen.line (p : Pen) (dx dy : ℝ) : Pen := p.line_to (p.pos.1 + dx) (p.pos.2 + dy)

/-- A part (list of operations added by its constructor) or an assembly
(list of children, each with the optional transform passed to
`add_component`; `none` when no transform is given). -/
inductive Component
  | part (ops : List Op)
  | assembly (children : List (Component × Option TF))

/-! ### `BallBearing626D` (source lines 41-70) -/

namespace BallBearing626D

def OUTER_DIAMETER : ℝ := Geneva.BEARING_DIAMETER

def INNER_DIAMETER : ℝ := Geneva.BEARING_INNER_DIAMETER

def HEIGHT : ℝ := Geneva.BEARING_HEIGHT

def outer_cylinder_op : ExtrusionOp :=
  { plane := .xy 0
    shape := .circle (0, 0) (OUTER_DIAMETER / 2)
    start := 0
    stop := HEIGHT
    cut := false }

def create_outer_cylinder : List Op := [.extrusion outer_cylinder_op]

def inner_hole_op : ExtrusionOp :=
  { plane := .xy 0
    shape := .circle (0, 0) (INNER_DIAMETER / 2)
    start := 0
    stop := HEIGHT
    cut := true }

def create_inner_hole : List Op := [.extrusion inner_hole_op]

def ops : List Op := create_outer_cylinder ++ create_inner_hole

def component : Component := .part ops

end BallBearing626D

/-! ### `RoundedRectangularPlateWithPins` (source lines 73-143) -/

namespace RoundedRectangularPlateWithPins

def WIDTH : ℝ := Geneva.BASE_WIDTH

def LENGTH : ℝ := Geneva.BASE_LENGTH

def PIN_DIAMETER : ℝ := 6

def LIP_DIAMETER : ℝ := 8

def LIP_HEIGHT : ℝ := Geneva.LIP_HEIGHT

def PIN_HEIGHT : ℝ := 6

def PIN_DISTANCE : ℝ := Geneva.PIN_DISTANCE

def FILLET_RADIUS : ℝ := 5

def PLATE_THICKNESS : ℝ := Geneva.PLATE_THICKNESS

def plate_op : ExtrusionOp :=
  { plane := .xy 0
    shape := .roundedCornerRectangle (0, 0) LENGTH WIDTH FILLET_RADIUS
    start := 0
    stop := PLATE_THICKNESS
    cut := false }

def create_plate : List Op := [.extrusion plate_op]

def pin1_center : ℝ × ℝ := (-PIN_DISTANCE / 2, 0)

def pin2_center : ℝ × ℝ := (PIN_DISTANCE / 2, 0)

def pin1_lip_op : ExtrusionOp :=
  { plane := .xy 0
    shape := .circle pin1_center (LIP_DIAMETER / 2)
    start := PLATE_THICKNESS
    stop := Geneva.CIRCLES_PART_HEIGHT
    cut := false }

def pin1_op : ExtrusionOp :=
  { plane := .xy 0
    shape := .circle pin1_center (PIN_DIAMETER / 2)
    start := Geneva.CIRCLES_PART_HEIGHT - Geneva.BEARING_PLATE_OFFSET
    stop := Geneva.CIRCLES_PART_HEIGHT + Geneva.BEARING_HEIGHT - Geneva.BEARING_PLATE_OFFSET
    cut := false }

def pin2_lip_op : ExtrusionOp :=
  { plane := .xy 0
    shape := .circle pin2_center (LIP_DIAMETER / 2)
    start := PLATE_THICKNESS
    stop := Geneva.CROSS_PART_HEIGHT
    cut := false }

def pin2_op : ExtrusionOp :=
  { plane := .xy 0
    shape := .circle pin2_center (PIN_DIAMETER / 2)
    start := Geneva.CROSS_PART_HEIGHT - Geneva.BEARING_PLATE_OFFSET
    stop := Geneva.CROSS_PART_HEIGHT + Geneva.BEARING_HEIGHT - Geneva.BEARING_PLATE_OFFSET
    cut := false }

def create_pins : List Op :=
  [.extrusion pin1_lip_op, .extrusion pin1_op, .extrusion pin2_lip_op, .extrusion pin2_op]

def ops : List Op := create_plate ++ create_pins

def component : Component := .part ops

end RoundedRectangularPlateWithPins

/-! ### `PlateWithBearingsAssembly` (source lines 146-169) -/

namespace PlateWithBearingsAssembly

def bearing1_tf : TF :=
  (TF.id.translate_x (-Geneva.PIN_DISTANCE / 2)).translate_z
    (Geneva.CIRCLES_PART_HEIGHT - Geneva.BEARING_PLATE_OFFSET)

def bearing2_tf : TF :=
  (TF.id.translate_x (Geneva.PIN_DISTANCE / 2)).translate_z
    (Geneva.CROSS_PART_HEIGHT - Geneva.BEARING_PLATE_OFFSET)

def children : List (Component × Option TF) :=
  [(RoundedRectangularPlateWithPins.component, none),
   (BallBearing626D.component, some bearing1_tf),
   (BallBearing626D.component, some bearing2_tf)]

def component : Component := .assembly children

end PlateWithBearingsAssembly

/-! ### `GenevaDiskAndHoles` (source lines 172-242) -/

namespace GenevaDiskAndHoles

def PART_THICKNESS : ℝ := 5

def STEP_HEIGHT : ℝ := PART_THICKNESS / 2

def DISK_DIAMETER : ℝ := Geneva.DISK_DIAMETER

def TOP_CIRCLE_DIAMETER : ℝ := Geneva.SLIDING_CIRCLE_DIAMETER

def CUT_DIAMETER : ℝ := Geneva.SLIDING_CIRCLE_DIAMETER

def CUT_OFFSET : ℝ := Geneva.PIN_DISTANCE

def LIP_HEIGHT : ℝ := Geneva.LIP_HEIGHT

/-- The pencil profile of `create_disk`: the sequence of
`line_to` / `line` calls starting from the sketch origin; `pen.y` in the
source is the current position's second coordinate `pos.2`. -/
def pen1 : Pen := Pen.start.line_to 0 (Geneva.BEARING_HEIGHT - Geneva.BEARING_PLATE_OFFSET)

def pen2 : Pen := pen1.line (Geneva.BEARING_DIAMETER / 2) 0

def pen3 : Pen := pen2.line 0 (-Geneva.BEARING_HEIGHT + Geneva.BEARING_PLATE_OFFSET)

def pen4 : Pen := pen3.line_to (DISK_DIAMETER / 2) pen3.pos.2

def pen5 : Pen := pen4.line 0 STEP_HEIGHT

def pen6 : Pen := pen5.line_to ((TOP_CIRCLE_DIAMETER - Geneva.DISK_TOLERANCE) / 2) pen5.pos.2

def pen7 : Pen := pen6.line 0 STEP_HEIGHT

def disk_pen : Pen := pen7.line_to 0 pen7.pos.2

def disk_lathe : LatheOp :=
  { plane := .yz
    profile := disk_pen.points
    axis := ((0, 0), (0, 1)) }

def create_disk : List Op := [.lathe disk_lathe]

def circle_cut_op : ExtrusionOp :=
  { plane := .xy STEP_HEIGHT
    shape := .circle (0, CUT_OFFSET) (CUT_DIAMETER / 2)
    start := 0
    stop := STEP_HEIGHT + LIP_HEIGHT
    cut := true }

def add_circle_cut : List Op := [.extrusion circle_cut_op]

def turning_pin_op : ExtrusionOp :=
  { plane := .xy (2 * STEP_HEIGHT)
    shape := .circle (0.8 * (TOP_CIRCLE_DIAMETER / 2), 0) (Geneva.PIN_DIAMETER / 2)
    start := 0
    stop := Geneva.PIN_HEIGHT
    cut := false }

def add_turning_pin : List Op := [.extrusion turning_pin_op]

def sliding_pin_op : ExtrusionOp :=
  { plane := .xy STEP_HEIGHT
    shape := .circle (0, Geneva.PIN_DISTANCE / Real.sqrt 2) (Geneva.PIN_DIAMETER / 2)
    start := 0
    stop := Geneva.PIN_HEIGHT
    cut := false }

def add_sliding_pin : List Op := [.extrusion sliding_pin_op]

def ops : List Op := create_disk ++ add_circle_cut ++ add_turning_pin ++ add_sliding_pin

def component : Component := .part ops

end GenevaDiskAndHoles

/-! ### `GenevaDriveCrossSection` (source lines 245-313) -/

namespace GenevaDriveCrossSection

def WIDTH : ℝ := Geneva.SLIDING_CIRCLE_DIAMETER

def CUT_OFFSET : ℝ := Geneva.PIN_DISTANCE

def CUT_RADIUS : ℝ := Geneva.SLIDING_CIRCLE_DIAMETER / 2

def SLOT_START_OFFSET : ℝ := Geneva.PIN_DISTANCE - Geneva.DISK_DIAMETER / 2

def CENTER_SLOT_OFFSET : ℝ := WIDTH / 2

def SLOT_LENGTH : ℝ := (CENTER_SLOT_OFFSET - SLOT_START_OFFSET) * 2

def SLOT_WIDTH : ℝ := Geneva.PIN_DIAMETER + 1

def CROSS_WIDTH : ℝ := 1 + Geneva.BEARING_HEIGHT - Geneva.BEARING_PLATE_OFFSET

def base_circle_op : ExtrusionOp :=
  { plane := .xy 0
    shape := .circle (0, 0) (WIDTH / 2)
    start := 0
    stop := CROSS_WIDTH
    cut := false }

def add_base_circle : List Op := [.extrusion base_circle_op]

def circle_cut_points : List (ℝ × ℝ) :=
  [(0, CUT_OFFSET), (0, -CUT_OFFSET), (CUT_OFFSET, 0), (-CUT_OFFSET, 0)]

def circle_cut_op (p : ℝ × ℝ) : ExtrusionOp :=
  { plane := .xy 0
    shape := .circle p CUT_RADIUS
    start := 0
    stop := CROSS_WIDTH
    cut := true }

def cut_4_circles : List Op := circle_cut_points.map (fun p => .extrusion (circle_cut_op p))

def orientation (i : ℕ) : ℝ := i * Real.pi / 2 + Real.pi / 4

def slot_center (i : ℕ) : ℝ × ℝ :=
  (Real.cos (orientation i) * CENTER_SLOT_OFFSET, Real.sin (orientation i) * CENTER_SLOT_OFFSET)

def slot_dx_len (i : ℕ) : ℝ := Real.cos (orientation i) * SLOT_LENGTH / 2

def slot_dy_len (i : ℕ) : ℝ := Real.sin (orientation i) * SLOT_LENGTH / 2

def slot_dx_width (i : ℕ) : ℝ := Real.sin (orientation i) * SLOT_WIDTH / 2

def slot_dy_width (i : ℕ) : ℝ := -Real.cos (orientation i) * SLOT_WIDTH / 2

def slot_points (i : ℕ) : List (ℝ × ℝ) :=
  [((slot_center i).1 - slot_dx_len i + slot_dx_width i,
    (slot_center i).2 - slot_dy_len i + slot_dy_width i),
   ((slot_center i).1 - slot_dx_len i - slot_dx_width i,
    (slot_center i).2 - slot_dy_len i - slot_dy_width i),
   ((slot_center i).1 + slot_dx_len i - slot_dx_width i,
    (slot_center i).2 + slot_dy_len i - slot_dy_width i),
   ((slot_center i).1 + slot_dx_len i + slot_dx_width i,
    (slot_center i).2 + slot_dy_len i + slot_dy_width i)]

/-- `zip(points, points[1:])` in the source: consecutive pairs. -/
def slot_lines (i : ℕ) : List ((ℝ × ℝ) × (ℝ × ℝ)) :=
  (slot_points i).zip (slot_points i).tail

def slot_op (i : ℕ) : ExtrusionOp :=
  { plane := .xy 0
    shape := .polygon (slot_lines i)
    start := 0
    stop := CROSS_WIDTH
    cut := true }

def cut_pin_slot : List Op := (List.range 4).map (fun i => .extrusion (slot_op i))

def bearing_hole_op : ExtrusionOp :=
  { plane := .xy 0
    shape := .circle (0, 0) (Geneva.BEARING_DIAMETER / 2)
    start := 0
    stop := CROSS_WIDTH - 1
    cut := true }

def cut_bearing_hole : List Op := [.extrusion bearing_hole_op]

def ops : List Op := add_base_circle ++ cut_4_circles ++ cut_pin_slot ++ cut_bearing_hole

def component : Component := .part ops

end GenevaDriveCrossSection

/-! ### `GenevaDrive` (source lines 316-339) -/

namespace GenevaDrive

def disk_tf : TF :=
  (TF.id.translate_z Geneva.CIRCLES_PART_HEIGHT).translate_x (-Geneva.PIN_DISTANCE / 2)

def cross_section_tf : TF :=
  (TF.id.translate_z Geneva.CROSS_PART_HEIGHT).translate_x (Geneva.PIN_DISTANCE / 2)

def children : List (Component × Option TF) :=
  [(PlateWithBearingsAssembly.component, none),
   (GenevaDiskAndHoles.component, some disk_tf),
   (GenevaDriveCrossSection.component, some cross_section_tf)]

def component : Component := .assembly children

end GenevaDrive

/-! ### The construction as a sequence of CAD-library calls

Constructing `GenevaDrive()` issues, in program order, one
`add_operation` call per operation of each part and one `add_component`
call per assembly child.  `runEvents` executes that fixed sequence
against an abstract CAD library `lib`; the wrapper never catches or
branches on an error, so a call sequence stops exactly when `lib` fails.
`runEventsTrace` records the calls actually issued. -/

inductive Event
  | addOperation (op : Op)
  | addComponent (tf : Option TF)

def opEvents (ops : List Op) : List Event := ops.map .addOperation

def PlateWithBearingsAssembly.trace : List Event :=
  opEvents RoundedRectangularPlateWithPins.ops ++ [.addComponent none] ++
  opEvents BallBearing626D.ops ++ [.addComponent (some PlateWithBearingsAssembly.bearing1_tf)] ++
  opEvents BallBearing626D.ops ++ [.addComponent (some PlateWithBearingsAssembly.bearing2_tf)]

def GenevaDrive.trace : List Event :=
  PlateWithBearingsAssembly.trace ++ [.addComponent none] ++
  opEvents GenevaDiskAndHoles.ops ++ [.addComponent (some GenevaDrive.disk_tf)] ++
  opEvents GenevaDriveCrossSection.ops ++ [.addComponent (some GenevaDrive.cross_section_tf)]

def runEvents (lib : Event → Option Unit) : List Event → Option Unit
  | [] => some ()
  | ev :: rest =>
    match lib ev with
    | some _ => runEvents lib rest
    | none => none

def runEventsTrace (lib : Event → Option Unit) : List Event → List Event
  | [] => []
  | ev :: rest =>
    match lib ev with
    | some _ => ev :: runEventsTrace lib rest
    | none => [ev]

/-! ### The boundary to the `foundation` library by name

The names the script imports from `foundation` (source lines 2-17); every
one of them is used in the module body. -/

def consumedFoundationNames : List String :=
  ["show", "Sketch", "Part", "Assembly", "Extrusion", "Circle", "Point", "Line",
   "Polygon", "Lathe", "RoundedCornerRectangle", "TFHelper", "Axis"]

/-- The primitives the specification lists as the only external
interface: "Sketch, Point, Line, Circle, Polygon, Extrusion, Lathe, Axis,
Part, Assembly, and a transform helper, plus a `show` entry point"
(the transform helper is `TFHelper`).  Stated from the specification's
words, to be compared with `consumedFoundationNames`. -/
def specListedFoundationNames : List String :=
  ["Sketch", "Point", "Line", "Circle", "Polygon", "Extrusion", "Lathe", "Axis",
   "Part", "Assembly", "TFHelper", "show"]

/-! ### Helper lemmas -/

lemma sqrt_two_pos : 0 < Real.sqrt 2 := Real.sqrt_pos.mpr (by norm_num)

lemma DISK_DIAMETER_pos : 0 < Geneva.DISK_DIAMETER := by
  have h1 : 0 < 2 * Geneva.PIN_DISTANCE / Real.sqrt 2 := by
    apply div_pos _ sqrt_two_pos
    norm_num [Geneva.PIN_DISTANCE, Geneva.BASE_LENGTH]
  have h2 : (0 : ℝ) < Geneva.PIN_DIAMETER := by norm_num [Geneva.PIN_DIAMETER]
  unfold Geneva.DISK_DIAMETER
  linarith

lemma CENTER_SLOT_OFFSET_nonneg : 0 ≤ GenevaDriveCrossSection.CENTER_SLOT_OFFSET := by
  have h := DISK_DIAMETER_pos
  unfold GenevaDriveCrossSection.CENTER_SLOT_OFFSET GenevaDriveCrossSection.WIDTH
    Geneva.SLIDING_CIRCLE_DIAMETER
  linarith

/-- The slot center as computed in `cut_pin_slot` lies at distance
`CENTER_SLOT_OFFSET` from the sketch origin. -/
lemma slot_center_norm (i : ℕ) :
    Real.sqrt ((GenevaDriveCrossSection.slot_center i).1 ^ 2 +
      (GenevaDriveCrossSection.slot_center i).2 ^ 2) =
    GenevaDriveCrossSection.CENTER_SLOT_OFFSET := by
  have hsc := Real.sin_sq_add_cos_sq (GenevaDriveCrossSection.orientation i)
  have h : (GenevaDriveCrossSection.slot_center i).1 ^ 2 +
      (GenevaDriveCrossSection.slot_center i).2 ^ 2 =
      GenevaDriveCrossSection.CENTER_SLOT_OFFSET ^ 2 := by
    simp only [GenevaDriveCrossSection.slot_center]
    linear_combination GenevaDriveCrossSection.CENTER_SLOT_OFFSET ^ 2 * hsc
  rw [h, Real.sqrt_sq CENTER_SLOT_OFFSET_nonneg]

/-- The four vertices of each slot polygon average to the slot center:
the length/width offsets cancel in the sum. -/
lemma slot_points_sum (i : ℕ) :
    (GenevaDriveCrossSection.slot_points i).sum =
      (4 * (GenevaDriveCrossSection.slot_center i).1,
       4 * (GenevaDriveCrossSection.slot_center i).2) := by
  simp only [GenevaDriveCrossSection.slot_points, List.sum_cons, List.sum_nil,
    Prod.mk_add_mk, add_zero, Prod.mk.injEq]
  constructor <;> ring

lemma runEvents_total (lib : Event → Option Unit) (h : ∀ ev, lib ev = some ())
    (evs : List Event) : runEvents lib evs = some () := by
  induction evs with
  | nil => rfl
  | cons ev rest ih => simp [runEvents, h ev, ih]

lemma runEventsTrace_total (lib : Event → Option Unit) (h : ∀ ev, lib ev = some ())
    (evs : List Event) : runEventsTrace lib evs = evs := by
  induction evs with
  | nil => rfl
  | cons ev rest ih => simp [runEventsTrace, h ev, ih]

/-! ### Claim theorems -/

/-- C1: in `create_pins` the two pin centers are at x = -PIN_DISTANCE/2
and x = +PIN_DISTANCE/2 with y = 0, the pin extrusions use those centers,
and in `PlateWithBearingsAssembly` the two `BallBearing626D` components
are translated by exactly those x offsets, so the bearing bore (the
bearing's inner hole, centered at the part origin) lands at
x = ±PIN_DISTANCE/2. -/
theorem claim_C1_pin_and_bearing_positions :
    RoundedRectangularPlateWithPins.pin1_center = (-Geneva.PIN_DISTANCE / 2, 0) ∧
    RoundedRectangularPlateWithPins.pin2_center = (Geneva.PIN_DISTANCE / 2, 0) ∧
    RoundedRectangularPlateWithPins.pin1_op.shape =
      Shape.circle RoundedRectangularPlateWithPins.pin1_center
        (RoundedRectangularPlateWithPins.PIN_DIAMETER / 2) ∧
    RoundedRectangularPlateWithPins.pin2_op.shape =
      Shape.circle RoundedRectangularPlateWithPins.pin2_center
        (RoundedRectangularPlateWithPins.PIN_DIAMETER / 2) ∧
    PlateWithBearingsAssembly.children =
      [(RoundedRectangularPlateWithPins.component, none),
       (BallBearing626D.component, some PlateWithBearingsAssembly.bearing1_tf),
       (BallBearing626D.component, some PlateWithBearingsAssembly.bearing2_tf)] ∧
    PlateWithBearingsAssembly.bearing1_tf.x = -Geneva.PIN_DISTANCE / 2 ∧
    PlateWithBearingsAssembly.bearing2_tf.x = Geneva.PIN_DISTANCE / 2 ∧
    BallBearing626D.inner_hole_op.shape =
      Shape.circle (0, 0) (BallBearing626D.INNER_DIAMETER / 2) ∧
    PlateWithBearingsAssembly.bearing1_tf.x + 0 =
      RoundedRectangularPlateWithPins.pin1_center.1 ∧
    PlateWithBearingsAssembly.bearing2_tf.x + 0 =
      RoundedRectangularPlateWithPins.pin2_center.1 := by
  refine ⟨rfl, rfl, rfl, rfl, rfl, ?_, ?_, rfl, ?_, ?_⟩ <;>
    simp [PlateWithBearingsAssembly.bearing1_tf, PlateWithBearingsAssembly.bearing2_tf,
      TF.id, TF.translate_x, TF.translate_z, RoundedRectangularPlateWithPins.pin1_center,
      RoundedRectangularPlateWithPins.pin2_center, RoundedRectangularPlateWithPins.PIN_DISTANCE]

/-- C2: constructing `GenevaDriveCrossSection` adds exactly four slot cut
extrusions, one per i in 0..3 at orientation i*π/2 + π/4 with its center
(the average of the slot polygon's four vertices) at distance
`CENTER_SLOT_OFFSET` from the origin, and exactly four circular relief
cuts centered at (0, ±CUT_OFFSET) and (±CUT_OFFSET, 0). -/
theorem claim_C2_four_slots_four_relief_cuts :
    GenevaDriveCrossSection.ops =
      GenevaDriveCrossSection.add_base_circle ++ GenevaDriveCrossSection.cut_4_circles ++
        GenevaDriveCrossSection.cut_pin_slot ++ GenevaDriveCrossSection.cut_bearing_hole ∧
    GenevaDriveCrossSection.cut_pin_slot.length = 4 ∧
    (∀ i : Fin 4,
      GenevaDriveCrossSection.cut_pin_slot[i.val]? =
        some (Op.extrusion (GenevaDriveCrossSection.slot_op i.val)) ∧
      (GenevaDriveCrossSection.slot_op i.val).cut = true ∧
      GenevaDriveCrossSection.orientation i.val =
        (i.val : ℝ) * Real.pi / 2 + Real.pi / 4 ∧
      (GenevaDriveCrossSection.slot_points i.val).sum =
        (4 * (GenevaDriveCrossSection.slot_center i.val).1,
         4 * (GenevaDriveCrossSection.slot_center i.val).2) ∧
      Real.sqrt ((GenevaDriveCrossSection.slot_center i.val).1 ^ 2 +
        (GenevaDriveCrossSection.slot_center i.val).2 ^ 2) =
        GenevaDriveCrossSection.CENTER_SLOT_OFFSET) ∧
    GenevaDriveCrossSection.cut_4_circles.length = 4 ∧
    GenevaDriveCrossSection.cut_4_circles =
      [Op.extrusion (GenevaDriveCrossSection.circle_cut_op
         (0, GenevaDriveCrossSection.CUT_OFFSET)),
       Op.extrusion (GenevaDriveCrossSection.circle_cut_op
         (0, -GenevaDriveCrossSection.CUT_OFFSET)),
       Op.extrusion (GenevaDriveCrossSection.circle_cut_op
         (GenevaDriveCrossSection.CUT_OFFSET, 0)),
       Op.extrusion (GenevaDriveCrossSection.circle_cut_op
         (-GenevaDriveCrossSection.CUT_OFFSET, 0))] ∧
    (∀ p : ℝ × ℝ, (GenevaDriveCrossSection.circle_cut_op p).cut = true ∧
      (GenevaDriveCrossSection.circle_cut_op p).shape =
        Shape.circle p GenevaDriveCrossSection.CUT_RADIUS) := by
  refine ⟨rfl, rfl, ?_, rfl, rfl, fun p => ⟨rfl, rfl⟩⟩
  intro i
  refine ⟨?_, rfl, rfl, slot_points_sum i.val, slot_center_norm i.val⟩
  fin_cases i <;> rfl

/-- C3: every module-level dimension is derived from the base
measurements by the stated formulas, and with BASE_LENGTH = 100,
PLATE_THICKNESS = 2, LIP_HEIGHT = 2, BEARING_PLATE_OFFSET = 3 this gives
PIN_DISTANCE = 50, CIRCLES_PART_HEIGHT = 7 and CROSS_PART_HEIGHT = 9. -/
theorem claim_C3_module_constants :
    Geneva.PIN_DISTANCE = Geneva.BASE_LENGTH * 0.5 ∧
    Geneva.DISK_DIAMETER = 2 * Geneva.PIN_DISTANCE / Real.sqrt 2 + Geneva.PIN_DIAMETER ∧
    Geneva.SLIDING_CIRCLE_DIAMETER = Geneva.DISK_DIAMETER * 0.8 ∧
    Geneva.CIRCLES_PART_HEIGHT =
      Geneva.PLATE_THICKNESS + Geneva.LIP_HEIGHT + Geneva.BEARING_PLATE_OFFSET ∧
    Geneva.CROSS_PART_HEIGHT = Geneva.CIRCLES_PART_HEIGHT + Geneva.PLATE_THICKNESS ∧
    Geneva.BASE_LENGTH = 100 ∧ Geneva.PLATE_THICKNESS = 2 ∧ Geneva.LIP_HEIGHT = 2 ∧
    Geneva.BEARING_PLATE_OFFSET = 3 ∧ Geneva.PIN_DISTANCE = 50 ∧
    Geneva.CIRCLES_PART_HEIGHT = 7 ∧ Geneva.CROSS_PART_HEIGHT = 9 := by
  refine ⟨rfl, rfl, rfl, rfl, rfl, rfl, rfl, rfl, rfl, ?_, ?_, ?_⟩ <;>
    norm_num [Geneva.PIN_DISTANCE, Geneva.BASE_LENGTH, Geneva.CIRCLES_PART_HEIGHT,
      Geneva.CROSS_PART_HEIGHT, Geneva.PLATE_THICKNESS, Geneva.LIP_HEIGHT,
      Geneva.BEARING_PLATE_OFFSET]

/-- C4: `GenevaDrive` composes exactly three components: the
`PlateWithBearingsAssembly` with no transform, the `GenevaDiskAndHoles`
translated by x = -PIN_DISTANCE/2 and z = CIRCLES_PART_HEIGHT, and the
`GenevaDriveCrossSection` translated by x = +PIN_DISTANCE/2 and
z = CROSS_PART_HEIGHT. -/
theorem claim_C4_assembly_composition :
    GenevaDrive.children =
      [(PlateWithBearingsAssembly.component, none),
       (GenevaDiskAndHoles.component, some GenevaDrive.disk_tf),
       (GenevaDriveCrossSection.component, some GenevaDrive.cross_section_tf)] ∧
    GenevaDrive.children.length = 3 ∧
    GenevaDrive.disk_tf = ⟨-Geneva.PIN_DISTANCE / 2, 0, Geneva.CIRCLES_PART_HEIGHT⟩ ∧
    GenevaDrive.cross_section_tf = ⟨Geneva.PIN_DISTANCE / 2, 0, Geneva.CROSS_PART_HEIGHT⟩ := by
  refine ⟨rfl, rfl, ?_, ?_⟩ <;>
    simp [GenevaDrive.disk_tf, GenevaDrive.cross_section_tf, TF.id,
      TF.translate_x, TF.translate_z]

/-- C5 counterexample: the script also consumes `RoundedCornerRectangle`
from the foundation library (used to draw the plate), and that name is
not among the primitives the specification lists. -/
theorem claim_C5_counterexample :
    "RoundedCornerRectangle" ∈ consumedFoundationNames ∧
    "RoundedCornerRectangle" ∉ specListedFoundationNames := by
  constructor <;> decide

/-- C5 (amended): every name the program consumes from the foundation
library is among the primitives the spec lists, except the additional
`RoundedCornerRectangle` primitive. -/
theorem claim_C5_amended_names (n : String) (h : n ∈ consumedFoundationNames) :
    n ∈ specListedFoundationNames ∨ n = "RoundedCornerRectangle" := by
  revert h
  revert n
  decide

theorem claim_C5_amended_names_witness :
    "Sketch" ∈ consumedFoundationNames ∧
    ("Sketch" ∈ specListedFoundationNames ∨ "Sketch" = "RoundedCornerRectangle") :=
  ⟨by decide, claim_C5_amended_names "Sketch" (by decide)⟩

/-- C6: the wrapper adds no error handling of its own: when every
CAD-library call succeeds, the whole construction sequence of
`GenevaDrive` (every part's `add_operation` calls and every
`add_component` call) completes successfully. -/
theorem claim_C6_no_error_handling (lib : Event → Option Unit)
    (h : ∀ ev, lib ev = some ()) :
    runEvents lib GenevaDrive.trace = some () :=
  runEvents_total lib h GenevaDrive.trace

theorem claim_C6_no_error_handling_witness :
    runEvents (fun _ => some ()) GenevaDrive.trace = some () :=
  claim_C6_no_error_handling (fun _ => some ()) (fun _ => rfl)

/-- C7: the construction is deterministic: the constructors take no
input, so against any two (total) CAD libraries the construction issues
the same fixed sequence of calls with the same numeric arguments, namely
`GenevaDrive.trace`. -/
theorem claim_C7_deterministic_trace (lib1 lib2 : Event → Option Unit)
    (h1 : ∀ ev, lib1 ev = some ()) (h2 : ∀ ev, lib2 ev = some ()) :
    runEventsTrace lib1 GenevaDrive.trace = runEventsTrace lib2 GenevaDrive.trace ∧
    runEventsTrace lib1 GenevaDrive.trace = GenevaDrive.trace := by
  rw [runEventsTrace_total lib1 h1 GenevaDrive.trace,
    runEventsTrace_total lib2 h2 GenevaDrive.trace]
  exact ⟨rfl, rfl⟩

theorem claim_C7_deterministic_trace_witness :
    runEventsTrace (fun _ => some ()) GenevaDrive.trace =
      runEventsTrace (fun _ => some ()) GenevaDrive.trace ∧
    runEventsTrace (fun _ => some ()) GenevaDrive.trace = GenevaDrive.trace :=
  claim_C7_deterministic_trace (fun _ => some ()) (fun _ => some ())
    (fun _ => rfl) (fun _ => rfl)

/-- C8: the plate's pin diameter (6 mm) equals the bearing's inner
diameter (BEARING_INNER_DIAMETER = 6 mm), so the pin circles the plate
extrudes have the same radius as the inner hole cut from each bearing. -/
theorem claim_C8_pin_fits_bore :
    RoundedRectangularPlateWithPins.PIN_DIAMETER = 6 ∧
    BallBearing626D.INNER_DIAMETER = Geneva.BEARING_INNER_DIAMETER ∧
    Geneva.BEARING_INNER_DIAMETER = 6 ∧
    RoundedRectangularPlateWithPins.PIN_DIAMETER = BallBearing626D.INNER_DIAMETER ∧
    RoundedRectangularPlateWithPins.pin1_op.shape =
      Shape.circle RoundedRectangularPlateWithPins.pin1_center
        (RoundedRectangularPlateWithPins.PIN_DIAMETER / 2) ∧
    RoundedRectangularPlateWithPins.pin2_op.shape =
      Shape.circle RoundedRectangularPlateWithPins.pin2_center
        (RoundedRectangularPlateWithPins.PIN_DIAMETER / 2) ∧
    BallBearing626D.inner_hole_op.shape =
      Shape.circle (0, 0) (BallBearing626D.INNER_DIAMETER / 2) ∧
    RoundedRectangularPlateWithPins.PIN_DIAMETER / 2 =
      BallBearing626D.INNER_DIAMETER / 2 :=
  ⟨rfl, rfl, rfl, rfl, rfl, rfl, rfl, rfl⟩

/-- C9: each bearing sits exactly on its pin: bearing1's z translation
equals the first pin extrusion's start, bearing2's z translation equals
the second pin extrusion's start, and each pin extrusion spans exactly
BEARING_HEIGHT, the height of the bearing. -/
theorem claim_C9_bearing_sits_on_pin :
    PlateWithBearingsAssembly.bearing1_tf.z =
      Geneva.CIRCLES_PART_HEIGHT - Geneva.BEARING_PLATE_OFFSET ∧
    PlateWithBearingsAssembly.bearing1_tf.z = RoundedRectangularPlateWithPins.pin1_op.start ∧
    PlateWithBearingsAssembly.bearing2_tf.z =
      Geneva.CROSS_PART_HEIGHT - Geneva.BEARING_PLATE_OFFSET ∧
    PlateWithBearingsAssembly.bearing2_tf.z = RoundedRectangularPlateWithPins.pin2_op.start ∧
    RoundedRectangularPlateWithPins.pin1_op.stop -
      RoundedRectangularPlateWithPins.pin1_op.start = Geneva.BEARING_HEIGHT ∧
    RoundedRectangularPlateWithPins.pin2_op.stop -
      RoundedRectangularPlateWithPins.pin2_op.start = Geneva.BEARING_HEIGHT ∧
    BallBearing626D.HEIGHT = Geneva.BEARING_HEIGHT := by
  refine ⟨?_, ?_, ?_, ?_, ?_, ?_, rfl⟩ <;>
    simp [PlateWithBearingsAssembly.bearing1_tf, PlateWithBearingsAssembly.bearing2_tf,
      TF.id, TF.translate_x, TF.translate_z, RoundedRectangularPlateWithPins.pin1_op,
      RoundedRectangularPlateWithPins.pin2_op]

/-- C10: the sliding pin is exactly internally tangent to the drive disk
rim: the pin center distance PIN_DISTANCE/√2 plus the pin radius
PIN_DIAMETER/2 equals DISK_DIAMETER/2, as an algebraic consequence of
DISK_DIAMETER = 2*PIN_DISTANCE/√2 + PIN_DIAMETER. -/
theorem claim_C10_sliding_pin_tangent :
    GenevaDiskAndHoles.sliding_pin_op.shape =
      Shape.circle (0, Geneva.PIN_DISTANCE / Real.sqrt 2) (Geneva.PIN_DIAMETER / 2) ∧
    Geneva.DISK_DIAMETER = 2 * Geneva.PIN_DISTANCE / Real.sqrt 2 + Geneva.PIN_DIAMETER ∧
    Geneva.PIN_DISTANCE / Real.sqrt 2 + Geneva.PIN_DIAMETER / 2 = Geneva.DISK_DIAMETER / 2 ∧
    Real.sqrt ((0 : ℝ) ^ 2 + (Geneva.PIN_DISTANCE / Real.sqrt 2) ^ 2) +
      Geneva.PIN_DIAMETER / 2 = Geneva.DISK_DIAMETER / 2 := by
  have hnn : 0 ≤ Geneva.PIN_DISTANCE / Real.sqrt 2 :=
    div_nonneg (by norm_num [Geneva.PIN_DISTANCE, Geneva.BASE_LENGTH]) (Real.sqrt_nonneg 2)
  have hkey : Geneva.PIN_DISTANCE / Real.sqrt 2 + Geneva.PIN_DIAMETER / 2 =
      Geneva.DISK_DIAMETER / 2 := by
    unfold Geneva.DISK_DIAMETER
    ring
  refine ⟨rfl, rfl, hkey, ?_⟩
  rw [show (0 : ℝ) ^ 2 + (Geneva.PIN_DISTANCE / Real.sqrt 2) ^ 2 =
    (Geneva.PIN_DISTANCE / Real.sqrt 2) ^ 2 by ring, Real.sqrt_sq hnn]
  exact hkey
